import Mathlib

/-
Verification of the projectile-motion simulator core
(Kinematics Evaluator, Animation Driver, Coordinate Mapper) against its
natural-language specification.  The embedding models JavaScript numbers
as real numbers; JavaScript division is modelled as an `Option`-valued
operation that is undefined on a zero divisor, so that an unguarded
division by zero is visible in the model.
-/

namespace Projectile

/-- The five physics inputs, mirroring `interface PhysicsParams`
(fields `theta`, `v0`, `h0`, `gravity`, `mass`). -/
structure PhysicsParams where
  theta : ℝ
  v0 : ℝ
  h0 : ℝ
  gravity : ℝ
  mass : ℝ

/-- One telemetry sample, mirroring `interface TelemetryData`
(fields `t`, `x`, `y`, `vx`, `vy`, `v`). -/
structure TelemetryData where
  t : ℝ
  x : ℝ
  y : ℝ
  vx : ℝ
  vy : ℝ
  v : ℝ

/-- Mirrors `const rad = (p.theta * Math.PI) / 180` in `calculateTelemetry`. -/
noncomputable def radOf (p : PhysicsParams) : ℝ := p.theta * Real.pi / 180

/-- Mirrors `const vx0 = p.v0 * Math.cos(rad)` in `calculateTelemetry`. -/
noncomputable def vx0 (p : PhysicsParams) : ℝ := p.v0 * Real.cos (radOf p)

/-- Mirrors `const vy0 = p.v0 * Math.sin(rad)` in `calculateTelemetry`. -/
noncomputable def vy0 (p : PhysicsParams) : ℝ := p.v0 * Real.sin (radOf p)

/-- The Kinematics Evaluator, `calculateTelemetry` in `App.tsx`:
`x = vx0*t`, `y = max(0, h0 + vy0*t - 0.5*g*t^2)`, `vx = vx0`,
`vy = vy0 - g*t`, `v = sqrt(vx*vx + vy*vy)`. -/
noncomputable def calculateTelemetry (t : ℝ) (p : PhysicsParams) : TelemetryData :=
  let x := vx0 p * t
  let y := p.h0 + vy0 p * t - 0.5 * p.gravity * t ^ 2
  let vx := vx0 p
  let vy := vy0 p - p.gravity * t
  let v := Real.sqrt (vx * vx + vy * vy)
  { t := t, x := x, y := max 0 y, vx := vx, vy := vy, v := v }

/-- The simulation session state of `App`: `isRunning`, `currentTime`,
`telemetry`, `history` and the frame-timestamp baseline
`lastTimeRef.current`. -/
structure SimState where
  isRunning : Bool
  currentTime : ℝ
  telemetry : TelemetryData
  history : List TelemetryData
  lastTime : ℝ

/-- The zero sample `{ t: 0, x: 0, y: 0, vx: 0, vy: 0, v: 0 }`. -/
def zeroTelemetry : TelemetryData :=
  { t := 0, x := 0, y := 0, vx := 0, vy := 0, v := 0 }

/-- The session created at application start: not running, time zero,
zero sample, empty trajectory, zero frame baseline. -/
def initState : SimState :=
  { isRunning := false, currentTime := 0, telemetry := zeroTelemetry,
    history := [], lastTime := 0 }

/-- The effective frame baseline of a tick:
`if (!lastTimeRef.current) lastTimeRef.current = time` makes the baseline
equal to the incoming timestamp when the stored baseline is `0`. -/
noncomputable def effLast (time : ℝ) (s : SimState) : ℝ :=
  if s.lastTime = 0 then time else s.lastTime

/-- Mirrors `const deltaTime = (time - lastTimeRef.current) / 1000`,
evaluated after the baseline initialisation. -/
noncomputable def tickDelta (time : ℝ) (s : SimState) : ℝ :=
  (time - effLast time s) / 1000

/-- Mirrors `const next = prev + deltaTime`: the candidate elapsed time
of a tick. -/
noncomputable def candidateTime (time : ℝ) (s : SimState) : ℝ :=
  s.currentTime + tickDelta time s

/-- One call of `animate(time)` in `App.tsx`.  The baseline is always
updated to `time`; while running, the sample at the candidate time
(`currentData` in the source) is stored as current telemetry and appended
to the history, and if `next > 0 && currentData.y <= 0 && currentData.vy < 0`
the run stops and `currentTime` is rolled back to its pre-tick value
(`return prev`), else `currentTime` becomes the candidate (`return next`). -/
noncomputable def animate (time : ℝ) (p : PhysicsParams) (s : SimState) : SimState :=
  if s.isRunning then
    if 0 < candidateTime time s ∧ (calculateTelemetry (candidateTime time s) p).y ≤ 0 ∧
        (calculateTelemetry (candidateTime time s) p).vy < 0 then
      { isRunning := false, currentTime := s.currentTime,
        telemetry := calculateTelemetry (candidateTime time s) p,
        history := s.history ++ [calculateTelemetry (candidateTime time s) p],
        lastTime := time }
    else
      { isRunning := true, currentTime := candidateTime time s,
        telemetry := calculateTelemetry (candidateTime time s) p,
        history := s.history ++ [calculateTelemetry (candidateTime time s) p],
        lastTime := time }
  else
    { s with lastTime := time }

/-- Mirrors `handleReset` in `App.tsx`: stop, zero the time and sample,
clear the history, zero the frame baseline. -/
def handleReset (_s : SimState) : SimState :=
  { isRunning := false, currentTime := 0, telemetry := zeroTelemetry,
    history := [], lastTime := 0 }

/-- Mirrors `handleToggle` in `App.tsx`: when idle after a landed flight
(`currentTime > 0 && !isRunning && telemetry.y <= 0`) it first performs
`handleReset()`, and in every case it ends with
`setIsRunning(!isRunning)` on the pre-toggle flag. -/
noncomputable def handleToggle (s : SimState) : SimState :=
  if 0 < s.currentTime ∧ s.isRunning = false ∧ s.telemetry.y ≤ 0 then
    { handleReset s with isRunning := !s.isRunning }
  else
    { s with isRunning := !s.isRunning }

/-- The launch button of the consolidated `App` variant
(`onClick=\x7b() => setIsRunning(!isRunning)\x7d`): a bare toggle. -/
def launchToggle (s : SimState) : SimState :=
  { s with isRunning := !s.isRunning }

/-- JavaScript division modelled over the reals: undefined (non-finite in
JavaScript) exactly when the divisor is zero. -/
noncomputable def jsDiv (a b : ℝ) : Option ℝ :=
  if b = 0 then none else some (a / b)

/-- The Coordinate Mapper of `SimulationCanvas`: `t_peak = v0y/g`,
`h_max = h0 + v0y*t_peak - 0.5*g*t_peak^2`,
`t_total = (v0y + sqrt(v0y^2 + 2*g*h0))/g`, `x_max = v0x*t_total`,
`scaleX = (w - 2*PADDING)/max(x_max*1.2, 50)`,
`scaleY = (h - 2*PADDING)/max(h_max*1.5, 30)`, `scale = min(scaleX, scaleY)`
with `PADDING = 60`.  Every division goes through `jsDiv`; the source has
no branch on the sign of `gravity`. -/
noncomputable def computeScale (p : PhysicsParams) (w h : ℝ) : Option ℝ := do
  let tPeak ← jsDiv (vy0 p) p.gravity
  let hMax := p.h0 + vy0 p * tPeak - 0.5 * p.gravity * tPeak ^ 2
  let tTotal ← jsDiv (vy0 p + Real.sqrt (vy0 p * vy0 p + 2 * p.gravity * p.h0)) p.gravity
  let xMax := vx0 p * tTotal
  let scaleX ← jsDiv (w - 60 * 2) (max (xMax * 1.2) 50)
  let scaleY ← jsDiv (h - 60 * 2) (max (hMax * 1.5) 30)
  return min scaleX scaleY

/-- One externally observable step of the Animation Driver session: a
frame tick with some timestamp and parameter snapshot, or one of the
reset, toggle or plain-launch commands. -/
inductive Step : SimState → SimState → Prop
  | tick (time : ℝ) (p : PhysicsParams) (s : SimState) : Step s (animate time p s)
  | reset (s : SimState) : Step s (handleReset s)
  | toggle (s : SimState) : Step s (handleToggle s)
  | launch (s : SimState) : Step s (launchToggle s)

/-- A session state reachable from the start state by driver steps. -/
def Reachable (s : SimState) : Prop :=
  Relation.ReflTransGen Step initState s

/-- Level launch with zero angle: theta 0, speed 20, height 0, gravity 10,
mass 1; its vertical launch speed is zero, so every positive time is past
impact. -/
def pLevel : PhysicsParams := { theta := 0, v0 := 20, h0 := 0, gravity := 10, mass := 1 }

/-- Straight-up launch: theta 90, speed 20, height 0, gravity 10, mass 1. -/
def pUp : PhysicsParams := { theta := 90, v0 := 20, h0 := 0, gravity := 10, mass := 1 }

/-- The default parameters with the gravity slider moved to its minimum 0. -/
def pNoG : PhysicsParams := { theta := 45, v0 := 20, h0 := 0, gravity := 0, mass := 1 }

/-- A running session one simulated second into a flight, with frame
baseline 5. -/
def sOver : SimState :=
  { isRunning := true, currentTime := 1, telemetry := zeroTelemetry,
    history := [], lastTime := 5 }

/-- A freshly launched session: running, but with the frame baseline
still at its post-reset value 0. -/
def sFresh : SimState :=
  { isRunning := true, currentTime := 0, telemetry := zeroTelemetry,
    history := [], lastTime := 0 }

/-- The sample reported when a flight has landed in the example run:
time 2, on the ground, still descending. -/
def tLand : TelemetryData := { t := 2, x := 10, y := 0, vx := 5, vy := -3, v := 6 }

/-- An idle session that has landed: positive elapsed time, current
sample on the ground. -/
def sLand : SimState :=
  { isRunning := false, currentTime := 2, telemetry := tLand,
    history := [tLand], lastTime := 7 }

/-- An idle session paused mid-flight: positive elapsed time, current
sample above the ground. -/
def sMid : SimState :=
  { isRunning := false, currentTime := 1,
    telemetry := { t := 1, x := 5, y := 3, vx := 5, vy := 2, v := 6 },
    history := [zeroTelemetry], lastTime := 4 }

/-- Every evaluator output has a floor-clamped nonnegative height. -/
lemma telemetry_y_nonneg (t : ℝ) (p : PhysicsParams) :
    0 ≤ (calculateTelemetry t p).y :=
  le_max_left 0 _

/-- Any driver step preserves nonnegativity of all stored and reported
sample heights. -/
lemma step_keeps_samples {s u : SimState} (hsu : Step s u)
    (h1 : ∀ d ∈ s.history, 0 ≤ d.y) (h2 : 0 ≤ s.telemetry.y) :
    (∀ d ∈ u.history, 0 ≤ d.y) ∧ 0 ≤ u.telemetry.y := by
  cases hsu with
  | tick time p =>
      unfold animate
      split
      · split <;>
          exact ⟨fun d hd => (List.mem_append.mp hd).elim (h1 d)
              (fun hd1 => by rw [List.mem_singleton.mp hd1]; exact telemetry_y_nonneg _ _),
            telemetry_y_nonneg _ _⟩
      · exact ⟨h1, h2⟩
  | reset => exact ⟨by simp [handleReset], le_refl 0⟩
  | toggle =>
      unfold handleToggle
      split
      · exact ⟨by simp [handleReset], le_refl 0⟩
      · exact ⟨h1, h2⟩
  | launch => exact ⟨h1, h2⟩

/-- Claim C5: every evaluator sample has nonnegative height (the raw
height is floor-clamped by `Math.max(0, y)`), and consequently in every
reachable session state all trajectory samples and the reported current
sample have nonnegative height. -/
theorem samples_y_nonneg :
    (∀ (t : ℝ) (p : PhysicsParams), 0 ≤ t → 0 ≤ (calculateTelemetry t p).y) ∧
    (∀ s : SimState, Reachable s →
      (∀ d ∈ s.history, 0 ≤ d.y) ∧ 0 ≤ s.telemetry.y) := by
  refine ⟨fun t p _ => telemetry_y_nonneg t p, fun s hs => ?_⟩
  unfold Reachable at hs
  induction hs with
  | refl => exact ⟨by simp [initState], le_refl 0⟩
  | tail _ hbc ih => exact step_keeps_samples hbc ih.1 ih.2

/-- Witness for C5 at time 1 with the level launch parameters and at
the initial session state. -/
theorem samples_y_nonneg_witness :
    0 ≤ (calculateTelemetry 1 pLevel).y ∧
      ((∀ d ∈ initState.history, 0 ≤ d.y) ∧ 0 ≤ initState.telemetry.y) :=
  ⟨samples_y_nonneg.1 1 pLevel (by norm_num),
    samples_y_nonneg.2 initState Relation.ReflTransGen.refl⟩

/-- Claim C6: at time zero and under the data-model preconditions the
evaluator returns time 0, position (0, initialHeight), velocity
(v0·cos θ, v0·sin θ) and speed v0. -/
theorem evaluate_at_zero (p : PhysicsParams)
    (h1 : 0 ≤ p.theta) (h2 : p.theta ≤ 90) (h3 : 0 < p.v0)
    (h4 : 0 ≤ p.h0) (h5 : 0 < p.gravity) :
    calculateTelemetry 0 p =
      { t := 0, x := 0, y := p.h0, vx := vx0 p, vy := vy0 p, v := p.v0 } := by
  have hsq : vx0 p * vx0 p + vy0 p * vy0 p = p.v0 ^ 2 := by
    unfold vx0 vy0
    have hr : p.v0 * Real.cos (radOf p) * (p.v0 * Real.cos (radOf p)) +
        p.v0 * Real.sin (radOf p) * (p.v0 * Real.sin (radOf p)) =
        p.v0 ^ 2 * (Real.sin (radOf p) ^ 2 + Real.cos (radOf p) ^ 2) := by ring
    rw [hr, Real.sin_sq_add_cos_sq, mul_one]
  simp only [calculateTelemetry, TelemetryData.mk.injEq]
  refine ⟨trivial, by ring, ?_, trivial, by ring, ?_⟩
  · rw [show p.h0 + vy0 p * 0 - 0.5 * p.gravity * 0 ^ 2 = p.h0 by ring]
    exact max_eq_right h4
  · rw [show vy0 p - p.gravity * 0 = vy0 p by ring, hsq, Real.sqrt_sq h3.le]

/-- Witness for C6 at the level launch parameters. -/
theorem evaluate_at_zero_witness :
    calculateTelemetry 0 pLevel =
      { t := 0, x := 0, y := pLevel.h0, vx := vx0 pLevel, vy := vy0 pLevel,
        v := pLevel.v0 } :=
  evaluate_at_zero pLevel (by norm_num [pLevel]) (by norm_num [pLevel])
    (by norm_num [pLevel]) (by norm_num [pLevel]) (by norm_num [pLevel])

/-- Claim C7: reset from any session state yields the unique zeroed idle
state (cleared trajectory, zero elapsed time, zero sample, zero frame
baseline), hence reset is idempotent. -/
theorem reset_zeroes_idempotent (s : SimState) :
    handleReset s = initState ∧
    (handleReset s).isRunning = false ∧
    (handleReset s).currentTime = 0 ∧
    (handleReset s).telemetry = zeroTelemetry ∧
    (handleReset s).history = [] ∧
    (handleReset s).lastTime = 0 ∧
    handleReset (handleReset s) = handleReset s :=
  ⟨rfl, rfl, rfl, rfl, rfl, rfl, rfl⟩

/-- Claim C9: the evaluator never reads the mass field; two parameter
records agreeing on everything but mass give identical samples. -/
theorem mass_noninterference (t : ℝ) (p1 p2 : PhysicsParams) (ht : 0 ≤ t)
    (hth : p1.theta = p2.theta) (hv : p1.v0 = p2.v0) (hh : p1.h0 = p2.h0)
    (hg : p1.gravity = p2.gravity) (hm : p1.mass ≠ p2.mass) :
    calculateTelemetry t p1 = calculateTelemetry t p2 := by
  simp only [calculateTelemetry, vx0, vy0, radOf, hth, hv, hh, hg]

/-- Witness for C9: level launch with mass 1 versus mass 2 at time 1. -/
theorem mass_noninterference_witness :
    calculateTelemetry 1 pLevel =
      calculateTelemetry 1 { theta := 0, v0 := 20, h0 := 0, gravity := 10, mass := 2 } :=
  mass_noninterference 1 pLevel _ (by norm_num) rfl rfl rfl rfl (by norm_num [pLevel])

/-- Claim C10: on a tick whose stored frame baseline is zero, the
baseline is first set to the incoming timestamp, so the measured delta
is zero; a running session still evaluates, reports and appends a sample
at the unchanged elapsed time, and the elapsed time does not advance. -/
theorem first_tick_zero_delta (time : ℝ) (p : PhysicsParams) (s : SimState)
    (hlast : s.lastTime = 0) (hrun : s.isRunning = true) :
    tickDelta time s = 0 ∧
    (animate time p s).currentTime = s.currentTime ∧
    (animate time p s).telemetry = calculateTelemetry s.currentTime p ∧
    (animate time p s).history = s.history ++ [calculateTelemetry s.currentTime p] := by
  have hd : tickDelta time s = 0 := by simp [tickDelta, effLast, hlast]
  have hc : candidateTime time s = s.currentTime := by
    simp [candidateTime, hd]
  refine ⟨hd, ?_⟩
  unfold animate
  rw [hrun, hc]
  simp only [if_true]
  split <;> exact ⟨rfl, rfl, rfl⟩

/-- Witness for C10: the fresh running session, timestamp 16, level
launch parameters. -/
theorem first_tick_zero_delta_witness :
    tickDelta 16 sFresh = 0 ∧
    (animate 16 pLevel sFresh).currentTime = sFresh.currentTime ∧
    (animate 16 pLevel sFresh).telemetry = calculateTelemetry sFresh.currentTime pLevel ∧
    (animate 16 pLevel sFresh).history =
      sFresh.history ++ [calculateTelemetry sFresh.currentTime pLevel] :=
  first_tick_zero_delta 16 pLevel sFresh rfl rfl

/-- Mirrors `const t_peak = v0y / params.gravity` in `SimulationCanvas`:
the analytic apex time. -/
noncomputable def tPeakOf (p : PhysicsParams) : ℝ := vy0 p / p.gravity

/-- Claim C8: under the data-model preconditions, the horizontal position
is non-decreasing in time when the horizontal launch speed is
nonnegative, and when the vertical launch speed is positive the clamped
height strictly increases up to the apex time and is non-increasing
after it. -/
theorem x_mono_y_unimodal (p : PhysicsParams) (hg : 0 < p.gravity)
    (hh : 0 ≤ p.h0) (t1 t2 : ℝ) (ht1 : 0 ≤ t1) (h12 : t1 ≤ t2) :
    (0 ≤ vx0 p → (calculateTelemetry t1 p).x ≤ (calculateTelemetry t2 p).x) ∧
    (0 < vy0 p →
      (t1 < t2 → t2 ≤ tPeakOf p →
        (calculateTelemetry t1 p).y < (calculateTelemetry t2 p).y) ∧
      (tPeakOf p ≤ t1 →
        (calculateTelemetry t2 p).y ≤ (calculateTelemetry t1 p).y)) := by
  constructor
  · intro hvx
    simp only [calculateTelemetry]
    exact mul_le_mul_of_nonneg_left h12 hvx
  · intro hvy
    constructor
    · intro hlt hpk
      have hg2 : p.gravity * t2 ≤ vy0 p := by
        rw [tPeakOf, le_div_iff₀ hg] at hpk
        linarith [hpk]
      have hn1 : 0 ≤ p.h0 + vy0 p * t1 - 0.5 * p.gravity * t1 ^ 2 := by
        nlinarith [mul_le_mul_of_nonneg_left h12 hg.le]
      have hn2 : 0 ≤ p.h0 + vy0 p * t2 - 0.5 * p.gravity * t2 ^ 2 := by
        nlinarith [mul_le_mul_of_nonneg_left h12 hg.le]
      have hstep : p.h0 + vy0 p * t1 - 0.5 * p.gravity * t1 ^ 2 <
          p.h0 + vy0 p * t2 - 0.5 * p.gravity * t2 ^ 2 := by
        nlinarith [mul_pos hg (sub_pos.mpr hlt)]
      simp only [calculateTelemetry]
      rw [max_eq_right hn1, max_eq_right hn2]
      exact hstep
    · intro hpk
      have hg1 : vy0 p ≤ p.gravity * t1 := by
        rw [tPeakOf, div_le_iff₀ hg] at hpk
        linarith [hpk]
      have hstep : p.h0 + vy0 p * t2 - 0.5 * p.gravity * t2 ^ 2 ≤
          p.h0 + vy0 p * t1 - 0.5 * p.gravity * t1 ^ 2 := by
        nlinarith [mul_le_mul_of_nonneg_left h12 hg.le,
          mul_nonneg hg.le (sub_nonneg.mpr h12)]
      simp only [calculateTelemetry]
      exact max_le_max (le_refl 0) hstep

/-- Witness for C8: straight-up launch, times 0 and 1, apex time 2. -/
theorem x_mono_y_unimodal_witness :
    (calculateTelemetry 0 pUp).x ≤ (calculateTelemetry 1 pUp).x ∧
    (calculateTelemetry 0 pUp).y < (calculateTelemetry 1 pUp).y := by
  have hrad : radOf pUp = Real.pi / 2 := by
    rw [radOf]
    norm_num [pUp]
    ring
  have hvx : vx0 pUp = 0 := by
    rw [vx0, hrad, Real.cos_pi_div_two, mul_zero]
  have hvy : vy0 pUp = 20 := by
    rw [vy0, hrad, Real.sin_pi_div_two, mul_one]
    norm_num [pUp]
  have htp : tPeakOf pUp = 2 := by
    rw [tPeakOf, hvy]
    norm_num [pUp]
  have h := x_mono_y_unimodal pUp (by norm_num [pUp]) (by norm_num [pUp])
    0 1 le_rfl (by norm_num)
  exact ⟨h.1 (le_of_eq hvx.symm),
    (h.2 (by rw [hvy]; norm_num)).1 (by norm_num) (by rw [htp]; norm_num)⟩

/-- With zero launch angle the radian conversion gives zero. -/
lemma radOf_pLevel : radOf pLevel = 0 := by
  simp [radOf, pLevel]

/-- With zero launch angle the vertical launch speed is zero. -/
lemma vy0_pLevel : vy0 pLevel = 0 := by
  rw [vy0, radOf_pLevel, Real.sin_zero, mul_zero]

/-- Along the level launch every nonnegative-time sample sits on the
clamped ground. -/
lemma pLevel_y_eq_zero (t : ℝ) (ht : 0 ≤ t) : (calculateTelemetry t pLevel).y = 0 := by
  simp only [calculateTelemetry]
  rw [vy0_pLevel]
  rw [show pLevel.h0 + 0 * t - 0.5 * pLevel.gravity * t ^ 2 = -(5 * t ^ 2) by
    norm_num [pLevel]]
  exact max_eq_left (neg_nonpos.mpr (by positivity))

/-- Along the level launch the vertical velocity at time t is -10·t. -/
lemma pLevel_vy (t : ℝ) : (calculateTelemetry t pLevel).vy = -(10 * t) := by
  simp only [calculateTelemetry]
  rw [vy0_pLevel]
  norm_num [pLevel]

/-- Counterexample to C1 as stated: a running tick at timestamp 5 whose
frame baseline is already 5 measures a zero delta; the candidate time
equals the pre-tick time 1, the freshly evaluated sample is on the ground
and descending, the driver stops and rolls back — yet the reported final
elapsed time equals the candidate time instead of being strictly less. -/
theorem ground_stop_rollback_cex :
    sOver.isRunning = true ∧
    0 < candidateTime 5 sOver ∧
    (calculateTelemetry (candidateTime 5 sOver) pLevel).y ≤ 0 ∧
    (calculateTelemetry (candidateTime 5 sOver) pLevel).vy < 0 ∧
    (animate 5 pLevel sOver).isRunning = false ∧
    (animate 5 pLevel sOver).currentTime = sOver.currentTime ∧
    ¬ (animate 5 pLevel sOver).currentTime < candidateTime 5 sOver := by
  have hcand : candidateTime 5 sOver = 1 := by
    norm_num [candidateTime, tickDelta, effLast, sOver]
  have hy : (calculateTelemetry (candidateTime 5 sOver) pLevel).y ≤ 0 := by
    rw [hcand, pLevel_y_eq_zero 1 (by norm_num)]
  have hvy : (calculateTelemetry (candidateTime 5 sOver) pLevel).vy < 0 := by
    rw [hcand, pLevel_vy]
    norm_num
  have hcond : 0 < candidateTime 5 sOver ∧
      (calculateTelemetry (candidateTime 5 sOver) pLevel).y ≤ 0 ∧
      (calculateTelemetry (candidateTime 5 sOver) pLevel).vy < 0 :=
    ⟨by rw [hcand]; norm_num, hy, hvy⟩
  have hanim : animate 5 pLevel sOver =
      { isRunning := false, currentTime := sOver.currentTime,
        telemetry := calculateTelemetry (candidateTime 5 sOver) pLevel,
        history := sOver.history ++ [calculateTelemetry (candidateTime 5 sOver) pLevel],
        lastTime := 5 } := by
    unfold animate
    rw [show sOver.isRunning = true from rfl]
    simp only [if_true]
    exact if_pos hcond
  refine ⟨rfl, hcond.1, hy, hvy, ?_, ?_, ?_⟩
  · rw [hanim]
  · rw [hanim]
  · rw [hanim, hcand]
    show ¬ (sOver.currentTime < 1)
    norm_num [sOver]

/-- Claim C1 as amended: on a running tick whose freshly evaluated
sample has y ≤ 0 and vy < 0 with positive candidate time, the driver
stops, rolls the elapsed time back to its pre-tick value, and still
appends and reports the overshoot sample; the rolled-back elapsed time
is strictly below the candidate time whenever the frame timestamp
strictly exceeds the effective baseline (positive measured delta). -/
theorem ground_stop_rollback (time : ℝ) (p : PhysicsParams) (s : SimState)
    (hrun : s.isRunning = true)
    (hpos : 0 < candidateTime time s)
    (hy : (calculateTelemetry (candidateTime time s) p).y ≤ 0)
    (hvy : (calculateTelemetry (candidateTime time s) p).vy < 0) :
    animate time p s =
      { isRunning := false, currentTime := s.currentTime,
        telemetry := calculateTelemetry (candidateTime time s) p,
        history := s.history ++ [calculateTelemetry (candidateTime time s) p],
        lastTime := time } ∧
    (effLast time s < time → s.currentTime < candidateTime time s) := by
  constructor
  · unfold animate
    rw [hrun]
    simp only [if_true]
    exact if_pos ⟨hpos, hy, hvy⟩
  · intro hlt
    have hdt : 0 < tickDelta time s :=
      div_pos (sub_pos.mpr hlt) (by norm_num)
    rw [candidateTime]
    linarith

/-- Witness for the amended C1: the running session at time 1 with
baseline 5 ticking at timestamp 6 (delta 1/1000). -/
theorem ground_stop_rollback_witness :
    animate 6 pLevel sOver =
      { isRunning := false, currentTime := sOver.currentTime,
        telemetry := calculateTelemetry (candidateTime 6 sOver) pLevel,
        history := sOver.history ++ [calculateTelemetry (candidateTime 6 sOver) pLevel],
        lastTime := 6 } ∧
    (effLast 6 sOver < 6 → sOver.currentTime < candidateTime 6 sOver) :=
  ground_stop_rollback 6 pLevel sOver rfl
    (by norm_num [candidateTime, tickDelta, effLast, sOver])
    (le_of_eq (pLevel_y_eq_zero _ (by norm_num [candidateTime, tickDelta, effLast, sOver])))
    (by rw [pLevel_vy]; norm_num [candidateTime, tickDelta, effLast, sOver])

/-- Counterexample to C2 as stated: launching from the idle landed
session (positive elapsed time, current sample on the ground) resets the
elapsed time and the trajectory even though no explicit reset command
was issued. -/
theorem launch_resumes_cex :
    sLand.isRunning = false ∧
    (handleToggle sLand).isRunning = true ∧
    (handleToggle sLand).currentTime ≠ sLand.currentTime ∧
    (handleToggle sLand).history ≠ sLand.history := by
  have hc : 0 < sLand.currentTime ∧ sLand.isRunning = false ∧ sLand.telemetry.y ≤ 0 :=
    ⟨by norm_num [sLand], rfl, by norm_num [sLand, tLand]⟩
  have ht : handleToggle sLand = { handleReset sLand with isRunning := !sLand.isRunning } := by
    unfold handleToggle
    exact if_pos hc
  refine ⟨rfl, ?_, ?_, ?_⟩
  · rw [ht]
    rfl
  · rw [ht]
    show (0:ℝ) ≠ sLand.currentTime
    norm_num [sLand]
  · rw [ht]
    show ([] : List TelemetryData) ≠ sLand.history
    simp [sLand]

/-- Claim C2 as amended: in `App.tsx` the launch toggle resumes from
any idle session except a landed one (positive elapsed time with the
current sample at y ≤ 0), where it performs an automatic reset first;
the consolidated variant's bare launch toggle always resumes. -/
theorem launch_resumes (s : SimState) (hidle : s.isRunning = false)
    (hnl : ¬ (0 < s.currentTime ∧ s.telemetry.y ≤ 0)) :
    handleToggle s = { s with isRunning := true } ∧
    launchToggle s = { s with isRunning := true } := by
  constructor
  · unfold handleToggle
    rw [if_neg]
    · rw [hidle]
      rfl
    · rintro ⟨hc1, _, hc3⟩
      exact hnl ⟨hc1, hc3⟩
  · unfold launchToggle
    rw [hidle]
    rfl

/-- Witness for the amended C2: the idle mid-flight session resumes with
its elapsed time, trajectory and sample intact. -/
theorem launch_resumes_witness :
    handleToggle sMid = { sMid with isRunning := true } ∧
    launchToggle sMid = { sMid with isRunning := true } :=
  launch_resumes sMid rfl (by norm_num [sMid])

/-- Claim C3, against the code: with the gravity slider at zero the
Coordinate Mapper still evaluates `v0y / params.gravity` — there is no
guard and no default-scale fallback, and the division by non-positive
gravity is reached (undefined in the real-number model, a non-finite
scale in JavaScript). -/
theorem mapper_divides_by_zero_gravity : computeScale pNoG 800 600 = none := by
  simp [computeScale, jsDiv, pNoG]

/-- Claim C4: for gravity > 0 and speed ≥ 0 and a viewport strictly
wider and taller than the 120 pixels of padding, the mapper's scale is
a well-defined strictly positive real; the 50 and 30 floors keep both
denominators at least 50 and 30 even in the degenerate v0 = 0, h0 = 0
case. -/
theorem scale_positive (p : PhysicsParams) (w h : ℝ) (hg : 0 < p.gravity)
    (hv : 0 ≤ p.v0) (hw : 120 < w) (hh : 120 < h) :
    ∃ sc : ℝ, computeScale p w h = some sc ∧ 0 < sc := by
  have hg0 : p.gravity ≠ 0 := ne_of_gt hg
  have hApos : (0:ℝ) < max (vx0 p *
      ((vy0 p + Real.sqrt (vy0 p * vy0 p + 2 * p.gravity * p.h0)) / p.gravity) * 1.2) 50 :=
    lt_of_lt_of_le (by norm_num) (le_max_right _ _)
  have hBpos : (0:ℝ) < max ((p.h0 + vy0 p * (vy0 p / p.gravity) -
      0.5 * p.gravity * (vy0 p / p.gravity) ^ 2) * 1.5) 30 :=
    lt_of_lt_of_le (by norm_num) (le_max_right _ _)
  have hstep : computeScale p w h = some (min
      ((w - 60 * 2) / max (vx0 p *
        ((vy0 p + Real.sqrt (vy0 p * vy0 p + 2 * p.gravity * p.h0)) / p.gravity) * 1.2) 50)
      ((h - 60 * 2) / max ((p.h0 + vy0 p * (vy0 p / p.gravity) -
        0.5 * p.gravity * (vy0 p / p.gravity) ^ 2) * 1.5) 30)) := by
    simp [computeScale, jsDiv, hg0, hApos.ne', hBpos.ne']
  exact ⟨_, hstep, lt_min (div_pos (by linarith) hApos) (div_pos (by linarith) hBpos)⟩

/-- Witness for C4: the degenerate straight-down case v0 = 0, h0 = 0
(apex height and range both 0) on an 800 by 600 canvas. -/
theorem scale_positive_witness :
    ∃ sc : ℝ,
      computeScale { theta := 45, v0 := 0, h0 := 0, gravity := 10, mass := 1 } 800 600 =
        some sc ∧ 0 < sc :=
  scale_positive _ 800 600 (by norm_num) (by norm_num) (by norm_num) (by norm_num)

end Projectile
